import Mathlib

/-!
# Williams blitter declarations and the Sequential Circuits MIDI cartridge

A shallow embedding of

* `src/mame/includes/williams.h`: the control-byte flag constants of the
  Williams blitter and the blitter-type selector constants;
* the blitter operations declared in `williams.h` whose bodies are not in
  the sources at hand, modelled from the specification;
* `src/devices/bus/c64/midi_sci.cpp`: the two bus handlers `c64_cd_r` and
  `c64_cd_w` of the C64 MIDI cartridge.

Definitions come first, theorems afterwards.
-/

namespace Williams

/-! ## Constants of `williams.h` -/

/-- Control-byte bit, `williams.h` line 42. -/
def WMS_BLITTER_CONTROLBYTE_NO_EVEN : Nat := 0x80
/-- Control-byte bit, `williams.h` line 43. -/
def WMS_BLITTER_CONTROLBYTE_NO_ODD : Nat := 0x40
/-- Control-byte bit, `williams.h` line 44. -/
def WMS_BLITTER_CONTROLBYTE_SHIFT : Nat := 0x20
/-- Control-byte bit, `williams.h` line 45. -/
def WMS_BLITTER_CONTROLBYTE_SOLID : Nat := 0x10
/-- Control-byte bit, `williams.h` line 46. -/
def WMS_BLITTER_CONTROLBYTE_FOREGROUND_ONLY : Nat := 0x08
/-- Control-byte bit, `williams.h` line 47 (2us blits instead of 1us). -/
def WMS_BLITTER_CONTROLBYTE_SLOW : Nat := 0x04
/-- Control-byte bit, `williams.h` line 48. -/
def WMS_BLITTER_CONTROLBYTE_DST_STRIDE_256 : Nat := 0x02
/-- Control-byte bit, `williams.h` line 49. -/
def WMS_BLITTER_CONTROLBYTE_SRC_STRIDE_256 : Nat := 0x01

/-- Selector `#define`, `williams.h` line 283: no blitter. -/
def WILLIAMS_BLITTER_NONE : Nat := 0
/-- Selector `#define`, `williams.h` line 284: Special Chip 1 blitter. -/
def WILLIAMS_BLITTER_SC1 : Nat := 1
/-- Selector `#define`, `williams.h` line 285: Special Chip 2 "bugfixed" blitter. -/
def WILLIAMS_BLITTER_SC2 : Nat := 2

/-- The eight enumerators of the control-byte `enum`, in declaration order. -/
def controlFlags : List Nat :=
  [WMS_BLITTER_CONTROLBYTE_NO_EVEN, WMS_BLITTER_CONTROLBYTE_NO_ODD,
   WMS_BLITTER_CONTROLBYTE_SHIFT, WMS_BLITTER_CONTROLBYTE_SOLID,
   WMS_BLITTER_CONTROLBYTE_FOREGROUND_ONLY, WMS_BLITTER_CONTROLBYTE_SLOW,
   WMS_BLITTER_CONTROLBYTE_DST_STRIDE_256, WMS_BLITTER_CONTROLBYTE_SRC_STRIDE_256]

/-- The three blitter-type selectors, in declaration order. -/
def blitterSelectors : List Nat :=
  [WILLIAMS_BLITTER_NONE, WILLIAMS_BLITTER_SC1, WILLIAMS_BLITTER_SC2]

/-- Bitwise OR of a list of flag values. -/
def orAll (fs : List Nat) : Nat := fs.foldr (fun f acc => f ||| acc) 0

/-- The flags of `controlFlags` that are set in the control byte `c`
(the C test `c & f`). -/
def flagsSet (c : Nat) : List Nat := controlFlags.filter (fun f => c &&& f != 0)

/-! ## The blitter state (`williams.h` lines 56-65) -/

/-- CPU address space, one byte per address. -/
abbrev Memory := Nat → Nat

/-- The blitter members of `williams_state` (`williams.h` lines 56-65).
`m_blitterram` is the eight-byte register block, `m_blitter_remap_lookup` the
storage behind `m_blitter_remap`. `tilemap_overlap` stands for the
hardware-defined framebuffer region that the blit window protects; the
specification does not give its extent, so it is carried as data of the
board. -/
structure BlitterState where
  m_blitter_config : Nat
  m_blitter_window_enable : Nat
  m_blitterram : Nat → Nat
  m_blitter_xor : Nat
  m_blitter_remap_index : Nat
  m_blitter_remap_lookup : List Nat
  tilemap_overlap : Nat → Bool

/-- Byte read from the CPU address space; addresses wrap modulo 64 KiB. -/
def readByte (mem : Memory) (addr : Nat) : Nat := mem (addr % 0x10000) % 0x100

/-- Byte write to the CPU address space; addresses wrap modulo 64 KiB. -/
def writeByte (mem : Memory) (addr v : Nat) : Memory :=
  fun a => if a = addr % 0x10000 then v % 0x100 else mem a

/-! ## The blitter operations

`blitter_init`, `blit_pixel` and `blitter_core` are declared in `williams.h`
(lines 105-107) and `williams_blitter_w` on line 75; their bodies are in
`video/williams.cpp`, which is not part of the sources at hand. The
definitions below follow sections 3, 4.1 and 4.5 of the specification. -/

/-- Modelled from the spec: one cell of the remap lookup that the body of
`blitter_init` (absent, `video/williams.cpp`) builds. Section 4.5:
`lut[i][b] = (remap_prom[(i<<4) | (b>>4)] << 4) | remap_prom[(i<<4) | (b & 0xF)]`,
"or an identity mapping if the PROM is absent". The cell is a `uint8_t`
(`williams.h` line 65), so the value is stored modulo 256. -/
def remapEntry (remap_prom : Option (Nat → Nat)) (i b : Nat) : Nat :=
  match remap_prom with
  | some prom => ((prom ((i <<< 4) ||| (b >>> 4)) <<< 4) ||| prom ((i <<< 4) ||| (b &&& 0xF))) % 0x100
  | none => b

/-- Modelled from the spec: the "16×256 remap lookup" of section 4.5, built by
the absent body of `blitter_init`: sixteen tables of 256 bytes, laid out so
that "`remap_index` × 256 + byte" indexes it (section 3). -/
def buildRemapLookup (remap_prom : Option (Nat → Nat)) : List Nat :=
  (List.range 16).flatMap (fun i => (List.range 256).map (fun b => remapEntry remap_prom i b))

/-- Modelled from the spec: `williams_state::blitter_init` (declared
`williams.h` line 105, body absent). Section 3: the configuration holds the
blitter type and "`blitter_xor` (0 for SC2, 4 for SC1 to model the known
bug)"; section 4.5: the remap lookup is built once. The members the
specification does not mention are left as they were. -/
def blitter_init (s : BlitterState) (blitter_config : Nat) (remap_prom : Option (Nat → Nat)) :
    BlitterState :=
  { s with
    m_blitter_config := blitter_config
    m_blitter_xor := if blitter_config = WILLIAMS_BLITTER_SC1 then 4 else 0
    m_blitter_remap_lookup := buildRemapLookup remap_prom }

/-- Modelled from the spec: the access `lut[index][byte]` into the lookup built
by `blitter_init`, section 3: "`remap_index` × 256 + byte always indexes a
valid entry in `blitter_remap_lookup`". -/
def lut (s : BlitterState) (index byte : Nat) : Nat :=
  s.m_blitter_remap_lookup.getD (index * 256 + byte) 0

/-- Modelled from the spec: the blit-window gate used by the absent body of
`blit_pixel`. Section 3, BlitWindowEnable: "when false, destination writes into
the visible tilemap-overlap region of framebuffer are suppressed". -/
def windowAllows (s : BlitterState) (dstaddr : Nat) : Bool :=
  s.m_blitter_window_enable != 0 || !s.tilemap_overlap dstaddr

/-- Modelled from the spec: `williams_state::blit_pixel` (declared `williams.h`
line 106, body absent). Section 4.1: the write mask is a per-nibble gate made
of NO_EVEN (the left pixel, high nibble, is skipped), NO_ODD (the right pixel,
low nibble, is skipped) and FOREGROUND_ONLY ("a destination byte's nibble is
only overwritten when the current destination nibble is non-zero"); the
masked pixel pair is written when the blit window allows the destination
address and discarded otherwise. Returns the memory and whether a write was
made. -/
def blit_pixel (s : BlitterState) (mem : Memory) (dstaddr srcdata controlbyte : Nat) :
    Memory × Bool :=
  let curpix := readByte mem dstaddr
  let fg := controlbyte &&& WMS_BLITTER_CONTROLBYTE_FOREGROUND_ONLY != 0
  let even := controlbyte &&& WMS_BLITTER_CONTROLBYTE_NO_EVEN == 0 && (!fg || curpix &&& 0xf0 != 0)
  let odd := controlbyte &&& WMS_BLITTER_CONTROLBYTE_NO_ODD == 0 && (!fg || curpix &&& 0x0f != 0)
  if (even || odd) && windowAllows s (dstaddr % 0x10000) then
    let hi := if even then srcdata &&& 0xf0 else curpix &&& 0xf0
    let lo := if odd then srcdata &&& 0x0f else curpix &&& 0x0f
    (writeByte mem dstaddr (hi ||| lo), true)
  else
    (mem, false)

/-- One position visited by a blit: the source address fetched, the
destination address, the byte fetched, the byte offered to the destination
(after SOLID, SHIFT and remap) and whether `blit_pixel` wrote. -/
structure BlitStep where
  src : Nat
  dst : Nat
  fetched : Nat
  data : Nat
  wrote : Bool
  deriving DecidableEq, Repr

/-- A loop over `xs` that threads a state and collects one output per
element, in order. -/
def loopAcc {σ α β : Type} (f : σ → α → σ × β) : σ → List α → σ × List β
  | st, [] => (st, [])
  | st, a :: as =>
    let r := f st a
    let rest := loopAcc f r.1 as
    (rest.1, r.2 :: rest.2)

/-- Modelled from the spec: destination address of row `y`, column `x`
(section 4.1, rectangle traversal):
`dst_row_base = dst_start + y × (DST_STRIDE_256 ? 256 : w)`. -/
def dstAddr (controlbyte dstart w y x : Nat) : Nat :=
  (dstart + y * (if controlbyte &&& WMS_BLITTER_CONTROLBYTE_DST_STRIDE_256 != 0 then 256 else w) + x)
    % 0x10000

/-- Modelled from the spec: source address of row `y`, column `x` (section
4.1, rectangle traversal): `src_row_base = src_start + y × (SRC_STRIDE_256 ?
256 : w)`. On SC1 (`blitter_xor` non-zero: "SC1 additionally loses one source
fetch per row, captured by `blitter_xor`") with SRC_STRIDE_256 set, the only
stride setting for which the specification exhibits the quirk (property 5,
scenario S4), every row after the first starts by re-reading a byte of the
row before and then continues with its own bytes one position late. Which
byte is re-read the specification states in two ways: the first byte of the
row before (section 3 and the data of scenario S4) or its last byte (section
4.1 and the remark in S4); `dupLast` selects the second reading. -/
def srcAddr (s : BlitterState) (dupLast : Bool) (controlbyte sstart w y x : Nat) : Nat :=
  let stride := if controlbyte &&& WMS_BLITTER_CONTROLBYTE_SRC_STRIDE_256 != 0 then 256 else w
  if s.m_blitter_xor != 0 && controlbyte &&& WMS_BLITTER_CONTROLBYTE_SRC_STRIDE_256 != 0
      && y != 0 then
    if x = 0 then
      (sstart + (y - 1) * stride + (if dupLast then w - 1 else 0)) % 0x10000
    else
      (sstart + y * stride + (x - 1)) % 0x10000
  else
    (sstart + y * stride + x) % 0x10000

/-- Modelled from the spec: the body of the column loop of `blitter_core`
(section 4.1, rectangle traversal). The loop state is the memory and the
previous source byte. The source byte is fetched, or replaced by the `color`
register (register 1) under SOLID; under SHIFT the output byte is
`(prev_src_low_nibble << 4) | curr_src_high_nibble`, the previous source byte
being 0 when the blit starts (scenario S2); the remap
`remap_lookup[remap_index][src]` is applied; `blit_pixel` masks and writes. -/
def blitColumn (s : BlitterState) (dupLast : Bool) (sstart dstart w controlbyte y : Nat)
    (st : Memory × Nat) (x : Nat) : (Memory × Nat) × BlitStep :=
  let sa := srcAddr s dupLast controlbyte sstart w y x
  let da := dstAddr controlbyte dstart w y x
  let fetched := readByte st.1 sa
  let cur := if controlbyte &&& WMS_BLITTER_CONTROLBYTE_SOLID != 0
    then s.m_blitterram 1 % 0x100 else fetched
  let shifted := if controlbyte &&& WMS_BLITTER_CONTROLBYTE_SHIFT != 0
    then ((st.2 &&& 0x0f) <<< 4) ||| (cur >>> 4) else cur
  let remapped := lut s s.m_blitter_remap_index shifted
  let p := blit_pixel s st.1 da remapped controlbyte
  ((p.1, cur), { src := sa, dst := da, fetched := fetched, data := remapped, wrote := p.2 })

/-- Result of a blit: the memory afterwards, the positions visited row by
row, and the cost in microseconds without the setup constant. -/
structure BlitResult where
  mem : Memory
  rows : List (List BlitStep)
  cost : Nat

/-- Modelled from the spec: `williams_state::blitter_core` (declared
`williams.h` line 107, body absent). Section 4.1: for each row `y ∈ [0,h)`
and each column `x ∈ [0,w)` one byte is processed; the cost is
`bytes_touched × (SLOW ? 2 : 1)`, "computed from declared width/height
regardless of skipped writes". `data` is the control byte. -/
def blitter_core (s : BlitterState) (dupLast : Bool) (mem : Memory)
    (sstart dstart w h data : Nat) : BlitResult :=
  let r := loopAcc
    (fun st y => loopAcc (blitColumn s dupLast sstart dstart w data y) st (List.range w))
    (mem, 0) (List.range h)
  { mem := r.1.1, rows := r.2,
    cost := w * h * (if data &&& WMS_BLITTER_CONTROLBYTE_SLOW != 0 then 2 else 1) }

/-- Modelled from the spec: `williams_state::williams_blitter_w` (declared
`williams.h` line 75, body absent). Section 4.1: WriteReg stores `v` in
register `r` (an out-of-range register is ignored, section 7); writing
register 0 triggers a blit with source `src_hi:src_lo` and destination
`dst_hi:dst_lo`. The width and height registers (6 and 7) "contain
`(count - 1) & 0xff`" and the blit loops `((w ^ x) & 0xff) + 1` by
`((h ^ x) & 0xff) + 1` bytes, where the xor operand `x` is the member
`m_blitter_xor` (`williams.h` line 62) of section 3: "0 for SC2, 4 for SC1 to
model the known bug". On SC1 this is the `^ 4` of the dimension formula of
section 4.1; on SC2 the registers are the counts less one, as in scenario S1
(registers 127 and 7 for 128 by 8 bytes). -/
def williams_blitter_w (s : BlitterState) (dupLast : Bool) (mem : Memory) (offset data : Nat) :
    BlitterState × BlitResult :=
  let s1 := if offset < 8 then
    { s with m_blitterram := fun r => if r = offset then data % 0x100 else s.m_blitterram r }
    else s
  if offset = 0 then
    let sstart := ((s1.m_blitterram 2 <<< 8) ||| s1.m_blitterram 3)
    let dstart := ((s1.m_blitterram 4 <<< 8) ||| s1.m_blitterram 5)
    let w := ((s1.m_blitterram 6 ^^^ s1.m_blitter_xor) &&& 0xff) + 1
    let h := ((s1.m_blitterram 7 ^^^ s1.m_blitter_xor) &&& 0xff) + 1
    (s1, blitter_core s1 dupLast mem sstart dstart w h (data % 0x100))
  else
    (s1, { mem := mem, rows := [], cost := 0 })

/-- The blit of property 5 of the specification: width 1, height `n`,
control byte SRC_STRIDE_256 alone, on a blitter initialised with type `cfg`
and no remap PROM (identity remap). -/
def stridedColumnBlit (cfg : Nat) (s : BlitterState) (dupLast : Bool) (mem : Memory)
    (sstart dstart n : Nat) : BlitResult :=
  blitter_core (blitter_init s cfg none) dupLast mem sstart dstart 1 n
    WMS_BLITTER_CONTROLBYTE_SRC_STRIDE_256

/-- A board state used to run the model: all registers zero, window enabled,
no overlap region, no lookup yet. -/
def demoState : BlitterState where
  m_blitter_config := 0
  m_blitter_window_enable := 1
  m_blitterram := fun _ => 0
  m_blitter_xor := 0
  m_blitter_remap_index := 0
  m_blitter_remap_lookup := []
  tilemap_overlap := fun _ => false

/-- The registers of scenario S1 of the specification on an SC2 board:
colour 0x77, source and destination 0, width register 127, height register
7. -/
def scenarioS1State : BlitterState :=
  { blitter_init demoState WILLIAMS_BLITTER_SC2 none with
    m_blitterram := fun r => if r = 1 then 0x77 else if r = 6 then 127 else if r = 7 then 7 else 0 }

/-- A board whose blit window is closed and whose protected region is the
whole address space: no destination write is allowed. -/
def closedWindowState : BlitterState :=
  { demoState with m_blitter_window_enable := 0, tilemap_overlap := fun _ => true }

/-- Reference semantics of one row of a one-byte-wide copy: the byte at the
source address `srcOf y` is stored at the destination address
`dstart + y`, addresses modulo 64 KiB. It is written with plain function
application, independently of `readByte`, `writeByte` and the blitter
model. -/
def copyRow (srcOf : Nat → Nat) (dstart : Nat) (m : Memory) (y : Nat) : Memory :=
  fun a => if a = (dstart + y) % 0x10000 then m (srcOf y) % 0x100 else m a

/-- A memory image used to run the model: the byte at `a` is `a mod 251`. -/
def demoMemory : Memory := fun a => a % 251

/-- The source bytes of scenario S4 of the specification: 0xAA, 0xBB at
0x8000, 0x8001 and 0xCC, 0xDD at 0x8100, 0x8101. -/
def scenarioS4Memory : Memory := fun a =>
  if a = 0x8000 then 0xAA else if a = 0x8001 then 0xBB
  else if a = 0x8100 then 0xCC else if a = 0x8101 then 0xDD else 0

/-- The source bytes of scenario S2 of the specification: 0x12, 0x34, 0x56 at
0x8000. -/
def scenarioS2Memory : Memory := fun a =>
  if a = 0x8000 then 0x12 else if a = 0x8001 then 0x34 else if a = 0x8002 then 0x56 else 0

end Williams

namespace C64Midi

/-! ## `midi_sci.cpp` -/

/-- A `uint8_t`. -/
abbrev Byte := Fin 256

/-- The MC6850 ACIA behind `m_acia`. The device lives outside this file, so its
two bus operations are parameters: `read` returns the byte and the state after
the read (reading a 6850 register has side effects), `write` the state after
the write. -/
structure Acia (σ : Type) where
  read : σ → Nat → Byte × σ
  write : σ → Nat → Byte → σ

/-- One access made to the ACIA by a bus handler. -/
inductive AciaAccess where
  | read (reg : Nat)
  | write (reg : Nat) (data : Byte)
  deriving DecidableEq, Repr

/-- What a bus handler leaves behind: the byte it returns (for `c64_cd_w`,
which returns `void`, the data byte passed through), the ACIA state and the
ACIA accesses it made, in order. -/
structure Outcome (σ : Type) where
  data : Byte
  acia : σ
  accesses : List AciaAccess

/-- `c64_sequential_midi_cartridge_device::c64_cd_r`, `midi_sci.cpp` lines
102-116. `offset` is an `offs_t`, the six line arguments are `int`s;
`!io1` is `io1 = 0`. -/
def c64_cd_r {σ : Type} (m_acia : Acia σ) (st : σ) (offset : Nat) (data : Byte)
    (_sphi2 _ba _roml _romh io1 _io2 : Int) : Outcome σ :=
  if io1 = 0 then
    match offset &&& 0xff with
    | 2 | 3 =>
      let r := m_acia.read st (offset &&& 1)
      { data := r.1, acia := r.2, accesses := [AciaAccess.read (offset &&& 1)] }
    | _ => { data := data, acia := st, accesses := [] }
  else
    { data := data, acia := st, accesses := [] }

/-- `c64_sequential_midi_cartridge_device::c64_cd_w`, `midi_sci.cpp` lines
123-135. -/
def c64_cd_w {σ : Type} (m_acia : Acia σ) (st : σ) (offset : Nat) (data : Byte)
    (_sphi2 _ba _roml _romh io1 _io2 : Int) : Outcome σ :=
  if io1 = 0 then
    match offset &&& 0xff with
    | 0 | 1 =>
      { data := data, acia := m_acia.write st (offset &&& 1) data,
        accesses := [AciaAccess.write (offset &&& 1) data] }
    | _ => { data := data, acia := st, accesses := [] }
  else
    { data := data, acia := st, accesses := [] }

/-- A small concrete ACIA used to run the handlers: the state is the list of
bytes written so far, a read returns the register number plus the number of
writes seen and records a zero. -/
def demoAcia : Acia (List Byte) where
  read st reg := (Fin.ofNat (reg + st.length), 0 :: st)
  write st _ data := data :: st

end C64Midi

/-! ## Theorems -/

namespace Williams

/-! ### Loops -/

theorem loopAcc_length {σ α β : Type} (f : σ → α → σ × β) (xs : List α) (st : σ) :
    (loopAcc f st xs).2.length = xs.length := by
  induction xs generalizing st with
  | nil => rfl
  | cons a as ih => simp [loopAcc, ih]

theorem loopAcc_state {σ α β : Type} (f : σ → α → σ × β) (P : σ → Prop)
    (hstep : ∀ st a, P st → P (f st a).1) (xs : List α) (st : σ) (h0 : P st) :
    P (loopAcc f st xs).1 := by
  induction xs generalizing st with
  | nil => exact h0
  | cons a as ih => exact ih _ (hstep st a h0)

theorem loopAcc_mem {σ α β : Type} (f : σ → α → σ × β) (xs : List α) (st : σ) (b : β)
    (hb : b ∈ (loopAcc f st xs).2) : ∃ st1 a, a ∈ xs ∧ b = (f st1 a).2 := by
  induction xs generalizing st with
  | nil => simp [loopAcc] at hb
  | cons a as ih =>
    simp only [loopAcc, List.mem_cons] at hb
    rcases hb with hb | hb
    · exact ⟨st, a, List.mem_cons_self _ _, hb⟩
    · obtain ⟨st1, a1, ha1, e⟩ := ih _ hb
      exact ⟨st1, a1, List.mem_cons_of_mem _ ha1, e⟩

/-! ### Masked writes -/

theorem blit_pixel_no_even_no_odd (s : BlitterState) (mem : Memory) (dstaddr srcdata c : Nat)
    (he : c &&& WMS_BLITTER_CONTROLBYTE_NO_EVEN ≠ 0) (ho : c &&& WMS_BLITTER_CONTROLBYTE_NO_ODD ≠ 0) :
    blit_pixel s mem dstaddr srcdata c = (mem, false) := by
  simp [blit_pixel, he, ho]

theorem blitter_core_rows_length (s : BlitterState) (dupLast : Bool) (mem : Memory)
    (sstart dstart w h data : Nat) :
    (blitter_core s dupLast mem sstart dstart w h data).rows.length = h ∧
    ∀ row ∈ (blitter_core s dupLast mem sstart dstart w h data).rows, row.length = w := by
  constructor
  · simp [blitter_core, loopAcc_length]
  · intro row hrow
    obtain ⟨st1, y, _, e⟩ := loopAcc_mem _ _ _ _ hrow
    rw [e, loopAcc_length, List.length_range]

theorem blitter_core_frame (s : BlitterState) (dupLast : Bool) (mem : Memory)
    (sstart dstart w h data : Nat)
    (he : data &&& WMS_BLITTER_CONTROLBYTE_NO_EVEN ≠ 0)
    (ho : data &&& WMS_BLITTER_CONTROLBYTE_NO_ODD ≠ 0) :
    (blitter_core s dupLast mem sstart dstart w h data).mem = mem := by
  unfold blitter_core
  have key := loopAcc_state
    (fun st y => loopAcc (blitColumn s dupLast sstart dstart w data y) st (List.range w))
    (fun st => st.1 = mem)
    (by
      intro st y hst
      exact loopAcc_state (blitColumn s dupLast sstart dstart w data y) (fun st => st.1 = mem)
        (by
          intro st1 x hst1
          simp only [blitColumn, blit_pixel_no_even_no_odd _ _ _ _ _ he ho]
          exact hst1)
        (List.range w) st hst)
    (List.range h) (mem, 0) rfl
  exact key

/-! ### The remap lookup -/

theorem flatMap_block_getElem? {α β : Type} (F : α → List β) (m : Nat)
    (hF : ∀ a, (F a).length = m) (l : List α) (j b : Nat) (hb : b < m) (a : α)
    (ha : l[j]? = some a) : (l.flatMap F)[j * m + b]? = (F a)[b]? := by
  induction l generalizing j with
  | nil => simp at ha
  | cons x xs ih =>
    rw [List.flatMap_cons]
    cases j with
    | zero =>
      simp only [List.getElem?_cons_zero, Option.some.injEq] at ha
      subst ha
      rw [Nat.zero_mul, Nat.zero_add, List.getElem?_append_left (by rw [hF]; exact hb)]
    | succ k =>
      simp only [List.getElem?_cons_succ] at ha
      rw [List.getElem?_append_right (by rw [hF]; nlinarith)]
      have e : (k + 1) * m + b - (F x).length = k * m + b := by
        rw [hF, Nat.add_mul, Nat.one_mul]; omega
      rw [e]
      exact ih k ha

theorem buildRemapLookup_getD (remap_prom : Option (Nat → Nat)) (i b : Nat)
    (hi : i < 16) (hb : b < 256) :
    (buildRemapLookup remap_prom).getD (i * 256 + b) 0 = remapEntry remap_prom i b := by
  unfold buildRemapLookup
  rw [List.getD_eq_getElem?_getD,
    flatMap_block_getElem? _ 256 (by intro a; simp) (List.range 16) i b hb i
      (List.getElem?_range hi)]
  simp [List.getElem?_range hb]

theorem lut_blitter_init (s : BlitterState) (cfg : Nat) (remap_prom : Option (Nat → Nat))
    (i b : Nat) (hi : i < 16) (hb : b < 256) :
    lut (blitter_init s cfg remap_prom) i b = remapEntry remap_prom i b := by
  simp only [lut, blitter_init]
  exact buildRemapLookup_getD remap_prom i b hi hb

set_option maxRecDepth 100000 in
theorem nibbles_join : ∀ x < 256, (x &&& 0xf0) ||| (x &&& 0x0f) = x := by decide

theorem readByte_lt (mem : Memory) (a : Nat) : readByte mem a < 256 := by
  unfold readByte
  omega

theorem readByte_mod (mem : Memory) (a : Nat) : readByte mem (a % 0x10000) = readByte mem a := by
  simp [readByte]

theorem srcAddr_sc2 (s : BlitterState) (dupLast : Bool) (sstart w y x : Nat) :
    srcAddr (blitter_init s WILLIAMS_BLITTER_SC2 none) dupLast
      WMS_BLITTER_CONTROLBYTE_SRC_STRIDE_256 sstart w y x = (sstart + 256 * y + x) % 0x10000 := by
  simp [srcAddr, blitter_init, WILLIAMS_BLITTER_SC2, WILLIAMS_BLITTER_SC1,
    WMS_BLITTER_CONTROLBYTE_SRC_STRIDE_256, Nat.mul_comm]

theorem srcAddr_sc1_row0 (s : BlitterState) (dupLast : Bool) (sstart w x : Nat) :
    srcAddr (blitter_init s WILLIAMS_BLITTER_SC1 none) dupLast
      WMS_BLITTER_CONTROLBYTE_SRC_STRIDE_256 sstart w 0 x = (sstart + x) % 0x10000 := by
  simp [srcAddr, blitter_init, WILLIAMS_BLITTER_SC1, WMS_BLITTER_CONTROLBYTE_SRC_STRIDE_256]

theorem srcAddr_sc1_row1 (s : BlitterState) (dupLast : Bool) (sstart : Nat) :
    srcAddr (blitter_init s WILLIAMS_BLITTER_SC1 none) dupLast
      WMS_BLITTER_CONTROLBYTE_SRC_STRIDE_256 sstart 1 1 0 = sstart % 0x10000 := by
  cases dupLast <;>
  simp [srcAddr, blitter_init, WILLIAMS_BLITTER_SC1, WMS_BLITTER_CONTROLBYTE_SRC_STRIDE_256]

theorem dstAddr_column (dstart y : Nat) :
    dstAddr WMS_BLITTER_CONTROLBYTE_SRC_STRIDE_256 dstart 1 y 0 = (dstart + y) % 0x10000 := by
  simp [dstAddr, WMS_BLITTER_CONTROLBYTE_SRC_STRIDE_256, WMS_BLITTER_CONTROLBYTE_DST_STRIDE_256]

theorem readByte_writeByte_same (mem : Memory) (a d : Nat) :
    readByte (writeByte mem d (readByte mem a)) a = readByte mem a := by
  unfold readByte writeByte
  by_cases h : a % 0x10000 = d % 0x10000
  · simp [h]
  · simp [h]

theorem mod_256_and (d f : Nat) (hf : 255 &&& f = f) : d % 0x100 &&& f = d &&& f := by
  have e : d % 0x100 = d &&& 255 := (Nat.and_pow_two_sub_one_eq_mod d 8).symm
  rw [e, Nat.land_assoc, hf]

theorem williams_blitter_w_trigger (s : BlitterState) (dupLast : Bool) (mem : Memory)
    (data : Nat) :
    ∃ s1 : BlitterState, s1.m_blitterram 6 = s.m_blitterram 6 ∧ s1.m_blitterram 7 = s.m_blitterram 7 ∧
      (williams_blitter_w s dupLast mem 0 data).2 =
        blitter_core s1 dupLast mem ((s1.m_blitterram 2 <<< 8) ||| s1.m_blitterram 3)
          ((s1.m_blitterram 4 <<< 8) ||| s1.m_blitterram 5)
          (((s.m_blitterram 6 ^^^ s.m_blitter_xor) &&& 0xff) + 1)
          (((s.m_blitterram 7 ^^^ s.m_blitter_xor) &&& 0xff) + 1)
          (data % 0x100) := by
  refine ⟨{ s with m_blitterram := fun r => if r = 0 then data % 0x100 else s.m_blitterram r },
    by simp, by simp, ?_⟩
  simp [williams_blitter_w]

set_option maxRecDepth 100000 in
theorem nibble_pair_lt : ∀ x < 16, ∀ y < 256, (x <<< 4) ||| y < 256 := by decide

theorem nibble_pair_mod (x y : Nat) (hx : x < 16) (hy : y < 256) :
    ((x <<< 4) ||| y) % 0x100 = (x <<< 4) ||| y :=
  Nat.mod_eq_of_lt (nibble_pair_lt x hx y hy)

/-! ### Loops over a given list -/

theorem loopAcc_state_mem {σ α β : Type} (f : σ → α → σ × β) (P : σ → Prop) (xs : List α)
    (hstep : ∀ st, ∀ a ∈ xs, P st → P (f st a).1) (st : σ) (h0 : P st) :
    P (loopAcc f st xs).1 := by
  induction xs generalizing st with
  | nil => exact h0
  | cons a as ih =>
    exact ih (fun st1 b hb => hstep st1 b (List.mem_cons_of_mem _ hb)) _
      (hstep st a (List.mem_cons_self _ _) h0)

theorem loopAcc_establish {σ α β : Type} (f : σ → α → σ × β) (P : σ → Prop) (xs : List α)
    (a0 : α) (ha0 : a0 ∈ xs) (hest : ∀ st, P (f st a0).1)
    (hstep : ∀ st, ∀ a ∈ xs, P st → P (f st a).1) (st : σ) :
    P (loopAcc f st xs).1 := by
  induction xs generalizing st with
  | nil => simp at ha0
  | cons a as ih =>
    rcases List.mem_cons.1 ha0 with h | h
    · subst h
      exact loopAcc_state_mem f P as
        (fun st1 b hb => hstep st1 b (List.mem_cons_of_mem _ hb)) _ (hest st)
    · exact ih h (fun st1 b hb => hstep st1 b (List.mem_cons_of_mem _ hb)) _

theorem loopAcc_foldl {σ α β : Type} (f : σ → α → σ × β) (g : σ → α → σ) (xs : List α)
    (h : ∀ st, ∀ a ∈ xs, (f st a).1 = g st a) (st : σ) :
    (loopAcc f st xs).1 = xs.foldl g st := by
  induction xs generalizing st with
  | nil => rfl
  | cons a as ih =>
    simp only [loopAcc, List.foldl_cons]
    rw [ih (fun st1 b hb => h st1 b (List.mem_cons_of_mem _ hb)),
      h st a (List.mem_cons_self _ _)]

theorem loopAcc_map_mem {σ α β γ : Type} (f : σ → α → σ × β) (g : β → γ) (k : α → γ)
    (xs : List α) (h : ∀ st, ∀ a ∈ xs, g (f st a).2 = k a) (st : σ) :
    (loopAcc f st xs).2.map g = xs.map k := by
  induction xs generalizing st with
  | nil => rfl
  | cons a as ih =>
    simp only [loopAcc, List.map_cons]
    rw [ih (fun st1 b hb => h st1 b (List.mem_cons_of_mem _ hb)),
      h st a (List.mem_cons_self _ _)]

/-! ### Solid fill -/

/-- With SOLID alone, a colour that the remap leaves alone and an open blit
window, one column step stores the colour at its destination address. -/
theorem blitColumn_solid (s : BlitterState) (dupLast : Bool) (sstart dstart w y x c : Nat)
    (st : Memory × Nat) (hc : s.m_blitterram 1 % 0x100 = c)
    (hl : lut s s.m_blitter_remap_index c = c) (hwin : s.m_blitter_window_enable ≠ 0) :
    (blitColumn s dupLast sstart dstart w WMS_BLITTER_CONTROLBYTE_SOLID y st x).1.1 =
      writeByte st.1 (dstAddr WMS_BLITTER_CONTROLBYTE_SOLID dstart w y x) c := by
  have hlt : c < 256 := by omega
  have hw : ∀ a, windowAllows s a = true := by
    intro a
    simp [windowAllows, hwin]
  have c1 : (WMS_BLITTER_CONTROLBYTE_SOLID &&& WMS_BLITTER_CONTROLBYTE_SOLID != 0) = true := by
    decide
  have c2 : (WMS_BLITTER_CONTROLBYTE_SOLID &&& WMS_BLITTER_CONTROLBYTE_SHIFT != 0) = false := by
    decide
  have c3 : (WMS_BLITTER_CONTROLBYTE_SOLID &&& WMS_BLITTER_CONTROLBYTE_FOREGROUND_ONLY != 0)
      = false := by decide
  have c4 : (WMS_BLITTER_CONTROLBYTE_SOLID &&& WMS_BLITTER_CONTROLBYTE_NO_EVEN == 0) = true := by
    decide
  have c5 : (WMS_BLITTER_CONTROLBYTE_SOLID &&& WMS_BLITTER_CONTROLBYTE_NO_ODD == 0) = true := by
    decide
  simp only [blitColumn, c1, c2, if_true, Bool.false_eq_true, if_false, hc, hl]
  simp only [blit_pixel, c3, c4, c5, hw, Bool.not_false, Bool.true_or, Bool.and_self,
    Bool.or_self, if_true, nibbles_join _ hlt]

theorem blitter_core_solid_fill (s : BlitterState) (dupLast : Bool) (mem : Memory)
    (sstart dstart w h c y0 x0 : Nat) (hc : s.m_blitterram 1 % 0x100 = c)
    (hl : lut s s.m_blitter_remap_index c = c) (hwin : s.m_blitter_window_enable ≠ 0)
    (hy : y0 < h) (hx : x0 < w) :
    (blitter_core s dupLast mem sstart dstart w h WMS_BLITTER_CONTROLBYTE_SOLID).mem
      (dstAddr WMS_BLITTER_CONTROLBYTE_SOLID dstart w y0 x0) = c := by
  have hlt : c < 256 := by omega
  have hmod : ∀ y x, dstAddr WMS_BLITTER_CONTROLBYTE_SOLID dstart w y x % 0x10000 =
      dstAddr WMS_BLITTER_CONTROLBYTE_SOLID dstart w y x := by
    intro y x
    simp [dstAddr]
  have keep : ∀ (st : Memory × Nat) (y x : Nat),
      st.1 (dstAddr WMS_BLITTER_CONTROLBYTE_SOLID dstart w y0 x0) = c →
      (blitColumn s dupLast sstart dstart w WMS_BLITTER_CONTROLBYTE_SOLID y st x).1.1
        (dstAddr WMS_BLITTER_CONTROLBYTE_SOLID dstart w y0 x0) = c := by
    intro st y x hst
    rw [blitColumn_solid s dupLast sstart dstart w y x c st hc hl hwin]
    unfold writeByte
    split
    · exact Nat.mod_eq_of_lt hlt
    · exact hst
  have est : ∀ (st : Memory × Nat),
      (blitColumn s dupLast sstart dstart w WMS_BLITTER_CONTROLBYTE_SOLID y0 st x0).1.1
        (dstAddr WMS_BLITTER_CONTROLBYTE_SOLID dstart w y0 x0) = c := by
    intro st
    rw [blitColumn_solid s dupLast sstart dstart w y0 x0 c st hc hl hwin]
    unfold writeByte
    rw [hmod, if_pos rfl]
    exact Nat.mod_eq_of_lt hlt
  unfold blitter_core
  exact loopAcc_establish
    (fun st y => loopAcc (blitColumn s dupLast sstart dstart w WMS_BLITTER_CONTROLBYTE_SOLID y)
      st (List.range w))
    (fun st => st.1 (dstAddr WMS_BLITTER_CONTROLBYTE_SOLID dstart w y0 x0) = c)
    (List.range h) y0 (List.mem_range.2 hy)
    (fun st => loopAcc_establish _ _ (List.range w) x0 (List.mem_range.2 hx)
      (fun st1 => est st1) (fun st1 x _ hst => keep st1 y0 x hst) st)
    (fun st y _ hst => loopAcc_state_mem _ _ (List.range w)
      (fun st1 x _ hst1 => keep st1 y x hst1) st hst)
    (mem, 0)

/-! ### The one-byte-wide copy -/

theorem srcAddr_mod (s : BlitterState) (dupLast : Bool) (c sstart w y x : Nat) :
    srcAddr s dupLast c sstart w y x % 0x10000 = srcAddr s dupLast c sstart w y x := by
  simp only [srcAddr]
  split
  · split <;> exact Nat.mod_mod _ _
  · exact Nat.mod_mod _ _

theorem dstAddr_mod (c dstart w y x : Nat) :
    dstAddr c dstart w y x % 0x10000 = dstAddr c dstart w y x := by
  unfold dstAddr
  exact Nat.mod_mod _ _

/-- With only SRC_STRIDE_256 set, an identity remap and a blit window that
allows the destination address, one column step fetches a byte and writes it
unchanged. -/
theorem blitColumn_copy_at (s : BlitterState) (cfg : Nat) (dupLast : Bool)
    (sstart dstart w y x : Nat) (st : Memory × Nat)
    (hidx : s.m_blitter_remap_index < 16)
    (hwin : windowAllows s (dstAddr WMS_BLITTER_CONTROLBYTE_SRC_STRIDE_256 dstart w y x) = true) :
    blitColumn (blitter_init s cfg none) dupLast sstart dstart w
        WMS_BLITTER_CONTROLBYTE_SRC_STRIDE_256 y st x =
      ((writeByte st.1 (dstAddr WMS_BLITTER_CONTROLBYTE_SRC_STRIDE_256 dstart w y x)
          (readByte st.1 (srcAddr (blitter_init s cfg none) dupLast
            WMS_BLITTER_CONTROLBYTE_SRC_STRIDE_256 sstart w y x)),
        readByte st.1 (srcAddr (blitter_init s cfg none) dupLast
            WMS_BLITTER_CONTROLBYTE_SRC_STRIDE_256 sstart w y x)),
       { src := srcAddr (blitter_init s cfg none) dupLast
            WMS_BLITTER_CONTROLBYTE_SRC_STRIDE_256 sstart w y x,
         dst := dstAddr WMS_BLITTER_CONTROLBYTE_SRC_STRIDE_256 dstart w y x,
         fetched := readByte st.1 (srcAddr (blitter_init s cfg none) dupLast
            WMS_BLITTER_CONTROLBYTE_SRC_STRIDE_256 sstart w y x),
         data := readByte st.1 (srcAddr (blitter_init s cfg none) dupLast
            WMS_BLITTER_CONTROLBYTE_SRC_STRIDE_256 sstart w y x),
         wrote := true }) := by
  generalize hsa : srcAddr (blitter_init s cfg none) dupLast
            WMS_BLITTER_CONTROLBYTE_SRC_STRIDE_256 sstart w y x = sa
  have hv := readByte_lt st.1 sa
  have hl : lut (blitter_init s cfg none) (blitter_init s cfg none).m_blitter_remap_index
      (readByte st.1 sa) = readByte st.1 sa := by
    have : (blitter_init s cfg none).m_blitter_remap_index = s.m_blitter_remap_index := rfl
    rw [this, lut_blitter_init s cfg none _ _ hidx hv]
    rfl
  have hw : windowAllows (blitter_init s cfg none)
      (dstAddr WMS_BLITTER_CONTROLBYTE_SRC_STRIDE_256 dstart w y x % 0x10000) = true := by
    rw [dstAddr_mod]
    exact hwin
  simp only [blitColumn, hsa]
  have c1 : (WMS_BLITTER_CONTROLBYTE_SRC_STRIDE_256 &&& WMS_BLITTER_CONTROLBYTE_SOLID != 0)
      = false := by decide
  have c2 : (WMS_BLITTER_CONTROLBYTE_SRC_STRIDE_256 &&& WMS_BLITTER_CONTROLBYTE_SHIFT != 0)
      = false := by decide
  simp only [c1, c2, Bool.false_eq_true, if_false, hl]
  have c3 : (WMS_BLITTER_CONTROLBYTE_SRC_STRIDE_256 &&&
      WMS_BLITTER_CONTROLBYTE_FOREGROUND_ONLY != 0) = false := by decide
  have c4 : (WMS_BLITTER_CONTROLBYTE_SRC_STRIDE_256 &&& WMS_BLITTER_CONTROLBYTE_NO_EVEN == 0)
      = true := by decide
  have c5 : (WMS_BLITTER_CONTROLBYTE_SRC_STRIDE_256 &&& WMS_BLITTER_CONTROLBYTE_NO_ODD == 0)
      = true := by decide
  simp only [blit_pixel, c3, c4, c5, hw, Bool.not_false, Bool.true_or, Bool.and_self,
    Bool.or_self, if_true, nibbles_join _ hv]

theorem srcAddr_sc1_column (s : BlitterState) (dupLast : Bool) (sstart y : Nat) :
    srcAddr (blitter_init s WILLIAMS_BLITTER_SC1 none) dupLast
      WMS_BLITTER_CONTROLBYTE_SRC_STRIDE_256 sstart 1 y 0 = (sstart + 256 * (y - 1)) % 0x10000 := by
  cases y <;> cases dupLast <;>
  simp [srcAddr, blitter_init, WILLIAMS_BLITTER_SC1, WMS_BLITTER_CONTROLBYTE_SRC_STRIDE_256,
    Nat.mul_comm]

theorem writeByte_readByte_eq_copyRow (srcOf : Nat → Nat) (dstart : Nat) (m : Memory) (y : Nat)
    (hs : srcOf y % 0x10000 = srcOf y) :
    writeByte m ((dstart + y) % 0x10000) (readByte m (srcOf y)) = copyRow srcOf dstart m y := by
  funext a
  simp only [writeByte, readByte, copyRow, hs, Nat.mod_mod]

theorem foldl_fst_copy (srcOf : Nat → Nat) (dstart : Nat) (xs : List Nat)
    (hs : ∀ y, srcOf y % 0x10000 = srcOf y) (m : Memory) (p : Nat) :
    (xs.foldl (fun (st : Memory × Nat) y =>
        (writeByte st.1 ((dstart + y) % 0x10000) (readByte st.1 (srcOf y)),
          readByte st.1 (srcOf y))) (m, p)).1 =
      xs.foldl (copyRow srcOf dstart) m := by
  induction xs generalizing m p with
  | nil => rfl
  | cons y ys ih =>
    simp only [List.foldl_cons]
    rw [ih, writeByte_readByte_eq_copyRow srcOf dstart m y (hs y)]

/-- The memory after the one-byte-wide copy is the memory before with the
rows copied one after the other. -/
theorem stridedColumnBlit_mem_eq (cfg : Nat) (s : BlitterState) (dupLast : Bool) (mem : Memory)
    (sstart dstart n : Nat) (hidx : s.m_blitter_remap_index < 16)
    (hwin : ∀ y < n, windowAllows s ((dstart + y) % 0x10000) = true) :
    (stridedColumnBlit cfg s dupLast mem sstart dstart n).mem =
      (List.range n).foldl
        (copyRow (fun y => srcAddr (blitter_init s cfg none) dupLast
          WMS_BLITTER_CONTROLBYTE_SRC_STRIDE_256 sstart 1 y 0) dstart) mem := by
  unfold stridedColumnBlit blitter_core
  have e1 : List.range 1 = [0] := rfl
  show (loopAcc _ (mem, 0) (List.range n)).1.1 = _
  rw [loopAcc_foldl _
    (fun (st : Memory × Nat) y =>
      (writeByte st.1 ((dstart + y) % 0x10000)
          (readByte st.1 (srcAddr (blitter_init s cfg none) dupLast
            WMS_BLITTER_CONTROLBYTE_SRC_STRIDE_256 sstart 1 y 0)),
        readByte st.1 (srcAddr (blitter_init s cfg none) dupLast
            WMS_BLITTER_CONTROLBYTE_SRC_STRIDE_256 sstart 1 y 0)))
    (List.range n)
    (by
      intro st y hy
      have hw := hwin y (List.mem_range.1 hy)
      rw [← dstAddr_column] at hw
      simp only [e1, loopAcc, blitColumn_copy_at s cfg dupLast sstart dstart 1 y 0 st hidx hw,
        dstAddr_column])]
  exact foldl_fst_copy _ dstart (List.range n) (fun y => srcAddr_mod _ _ _ _ _ _ _) mem 0

theorem copyFold_succ (srcOf : Nat → Nat) (dstart : Nat) (mem : Memory) (k : Nat) :
    (List.range (k + 1)).foldl (copyRow srcOf dstart) mem =
      copyRow srcOf dstart ((List.range k).foldl (copyRow srcOf dstart) mem) k := by
  rw [List.range_succ, List.foldl_append]
  rfl

/-- An address that no row from `j` on writes keeps the value it has after
`j` rows. -/
theorem copyFold_stable (srcOf : Nat → Nat) (dstart : Nat) (mem : Memory) (a j k : Nat)
    (hjk : j ≤ k) (hne : ∀ y, j ≤ y → y < k → a ≠ (dstart + y) % 0x10000) :
    (List.range k).foldl (copyRow srcOf dstart) mem a =
      (List.range j).foldl (copyRow srcOf dstart) mem a := by
  induction k with
  | zero =>
    have : j = 0 := by omega
    rw [this]
  | succ k ih =>
    by_cases hj : j = k + 1
    · rw [hj]
    · have hjk1 : j ≤ k := by omega
      rw [copyFold_succ]
      unfold copyRow
      rw [if_neg (hne k hjk1 (Nat.lt_succ_self k))]
      exact ih hjk1 (fun y h1 h2 => hne y h1 (Nat.lt_succ_of_lt h2))

/-- The byte at the destination of row `y` after the copy is the byte that
was at the source of row `y` before it, when no earlier row wrote that
source address. -/
theorem copyFold_value (srcOf : Nat → Nat) (dstart : Nat) (mem : Memory) (n y : Nat)
    (hn : n ≤ 0x10000) (hy : y < n)
    (hsrc : ∀ z < y, (dstart + z) % 0x10000 ≠ srcOf y) :
    (List.range n).foldl (copyRow srcOf dstart) mem ((dstart + y) % 0x10000) =
      mem (srcOf y) % 0x100 := by
  rw [copyFold_stable srcOf dstart mem _ (y + 1) n (by omega)
    (by intro z h1 h2; omega)]
  rw [copyFold_succ]
  have h0 := copyFold_stable srcOf dstart mem (srcOf y) 0 y (Nat.zero_le _)
    (fun z _ h2 => (hsrc z h2).symm)
  show (if (dstart + y) % 0x10000 = (dstart + y) % 0x10000
    then (List.range y).foldl (copyRow srcOf dstart) mem (srcOf y) % 0x100
    else (List.range y).foldl (copyRow srcOf dstart) mem ((dstart + y) % 0x10000)) = _
  rw [if_pos rfl, h0]
  rfl

theorem sc2_trace (s : BlitterState) (dupLast : Bool) (mem : Memory) (sstart dstart n : Nat)
    (hidx : s.m_blitter_remap_index < 16)
    (hwin : ∀ y < n, windowAllows s ((dstart + y) % 0x10000) = true) :
    (stridedColumnBlit WILLIAMS_BLITTER_SC2 s dupLast mem sstart dstart n).rows.map
        (List.map (fun e => (e.src, e.dst, e.wrote))) =
      (List.range n).map
        (fun y => [((sstart + 256 * y) % 0x10000, (dstart + y) % 0x10000, true)]) := by
  unfold stridedColumnBlit blitter_core
  apply loopAcc_map_mem
  intro st y hy
  have hw := hwin y (List.mem_range.1 hy)
  rw [← dstAddr_column] at hw
  have e1 : List.range 1 = [0] := rfl
  simp only [e1, loopAcc, blitColumn_copy_at s _ dupLast sstart dstart 1 y 0 st hidx hw,
    srcAddr_sc2, dstAddr_column, List.map_cons, List.map_nil, Nat.add_zero]

theorem stridedColumnBlit_data (cfg : Nat) (s : BlitterState) (dupLast : Bool) (mem : Memory)
    (sstart dstart n : Nat) (hidx : s.m_blitter_remap_index < 16)
    (hwin : ∀ y < n, windowAllows s ((dstart + y) % 0x10000) = true) :
    ∀ row ∈ (stridedColumnBlit cfg s dupLast mem sstart dstart n).rows,
      ∀ e ∈ row, e.data = e.fetched ∧ e.wrote = true := by
  intro row hrow e he
  unfold stridedColumnBlit blitter_core at hrow
  obtain ⟨st1, y, hy, hrow1⟩ := loopAcc_mem _ _ _ _ hrow
  subst hrow1
  obtain ⟨st2, x, hx, hx1⟩ := loopAcc_mem _ _ _ _ he
  subst hx1
  have hx0 : x = 0 := by
    have := List.mem_range.1 hx
    omega
  subst hx0
  have hw := hwin y (List.mem_range.1 hy)
  rw [← dstAddr_column] at hw
  rw [blitColumn_copy_at s _ dupLast sstart dstart 1 y 0 st2 hidx hw]
  exact ⟨rfl, rfl⟩

theorem sc2_mem_eq (s : BlitterState) (dupLast : Bool) (mem : Memory) (sstart dstart n : Nat)
    (hidx : s.m_blitter_remap_index < 16)
    (hwin : ∀ y < n, windowAllows s ((dstart + y) % 0x10000) = true) :
    (stridedColumnBlit WILLIAMS_BLITTER_SC2 s dupLast mem sstart dstart n).mem =
      (List.range n).foldl (copyRow (fun y => (sstart + 256 * y) % 0x10000) dstart) mem := by
  rw [stridedColumnBlit_mem_eq _ s dupLast mem sstart dstart n hidx hwin]
  have : (fun y => srcAddr (blitter_init s WILLIAMS_BLITTER_SC2 none) dupLast
      WMS_BLITTER_CONTROLBYTE_SRC_STRIDE_256 sstart 1 y 0) =
      fun y => (sstart + 256 * y) % 0x10000 := by
    funext y
    rw [srcAddr_sc2]
    rfl
  rw [this]

theorem sc1_mem_eq (s : BlitterState) (dupLast : Bool) (mem : Memory) (sstart dstart n : Nat)
    (hidx : s.m_blitter_remap_index < 16)
    (hwin : ∀ y < n, windowAllows s ((dstart + y) % 0x10000) = true) :
    (stridedColumnBlit WILLIAMS_BLITTER_SC1 s dupLast mem sstart dstart n).mem =
      (List.range n).foldl (copyRow (fun y => (sstart + 256 * (y - 1)) % 0x10000) dstart) mem := by
  rw [stridedColumnBlit_mem_eq _ s dupLast mem sstart dstart n hidx hwin]
  have : (fun y => srcAddr (blitter_init s WILLIAMS_BLITTER_SC1 none) dupLast
      WMS_BLITTER_CONTROLBYTE_SRC_STRIDE_256 sstart 1 y 0) =
      fun y => (sstart + 256 * (y - 1)) % 0x10000 := by
    funext y
    rw [srcAddr_sc1_column]
  rw [this]

theorem sc1_rows (s : BlitterState) (dupLast : Bool) (mem : Memory) (sstart dstart n : Nat)
    (hidx : s.m_blitter_remap_index < 16)
    (hwin : ∀ y < n, windowAllows s ((dstart + y) % 0x10000) = true) (h2 : 2 ≤ n) :
    ∃ rest,
      (stridedColumnBlit WILLIAMS_BLITTER_SC1 s dupLast mem sstart dstart n).rows =
        [{ src := sstart % 0x10000, dst := dstart % 0x10000,
           fetched := readByte mem sstart, data := readByte mem sstart, wrote := true }] ::
        [{ src := sstart % 0x10000, dst := (dstart + 1) % 0x10000,
           fetched := readByte mem sstart, data := readByte mem sstart, wrote := true }] ::
        rest := by
  obtain ⟨m, rfl⟩ : ∃ m, n = m + 2 := ⟨n - 2, by omega⟩
  have hw0 := hwin 0 (by omega)
  have hw1 := hwin 1 (by omega)
  rw [← dstAddr_column] at hw0 hw1
  unfold stridedColumnBlit blitter_core
  have e1 : List.range 1 = [0] := rfl
  have e2 : List.range (m + 2) = 0 :: 1 :: (List.range m).map (fun y => y + 2) := by
    rw [List.range_succ_eq_map, List.range_succ_eq_map m]
    simp [Function.comp_def]
  rw [e2]
  simp only [List.map_cons, loopAcc, e1,
    blitColumn_copy_at s _ dupLast sstart dstart 1 0 0 _ hidx hw0,
    blitColumn_copy_at s _ dupLast sstart dstart 1 1 0 _ hidx hw1,
    srcAddr_sc1_row0, srcAddr_sc1_row1, dstAddr_column, Nat.add_zero, Nat.succ_eq_add_one,
    Nat.zero_add, readByte_mod, readByte_writeByte_same]
  exact ⟨_, rfl⟩

theorem sc1_first_two (s : BlitterState) (dupLast : Bool) (mem : Memory) (sstart dstart n : Nat)
    (hidx : s.m_blitter_remap_index < 16)
    (hwin : ∀ y < n, windowAllows s ((dstart + y) % 0x10000) = true)
    (h2 : 2 ≤ n) (hn : n ≤ 256) :
    (stridedColumnBlit WILLIAMS_BLITTER_SC1 s dupLast mem sstart dstart n).mem
        (dstart % 0x10000) = mem (sstart % 0x10000) % 0x100 ∧
    (stridedColumnBlit WILLIAMS_BLITTER_SC1 s dupLast mem sstart dstart n).mem
        ((dstart + 1) % 0x10000) = mem (sstart % 0x10000) % 0x100 := by
  rw [sc1_mem_eq s dupLast mem sstart dstart n hidx hwin]
  constructor
  · have h := copyFold_value (fun y => (sstart + 256 * (y - 1)) % 0x10000) dstart mem n 0
      (by omega) (by omega) (by intro z hz; omega)
    simpa using h
  · rw [copyFold_stable _ dstart mem _ 2 n h2 (by intro z h1 h3; omega)]
    rw [copyFold_succ, copyFold_succ]
    show (if (dstart + 1) % 0x10000 = (dstart + 1) % 0x10000
      then (copyRow (fun y => (sstart + 256 * (y - 1)) % 0x10000) dstart mem 0)
        ((sstart + 256 * (1 - 1)) % 0x10000) % 0x100
      else _) = _
    rw [if_pos rfl]
    show (if (sstart + 256 * (1 - 1)) % 0x10000 = (dstart + 0) % 0x10000
      then mem ((sstart + 256 * (0 - 1)) % 0x10000) % 0x100
      else mem ((sstart + 256 * (1 - 1)) % 0x10000)) % 0x100 = _
    split
    · simp
    · simp

/-! ### The positions of a blit -/

theorem blitter_core_positions (s : BlitterState) (dupLast : Bool) (mem : Memory)
    (sstart dstart w h data : Nat) :
    (blitter_core s dupLast mem sstart dstart w h data).rows.map (List.map (fun e => e.dst)) =
      (List.range h).map (fun y => (List.range w).map (fun x => dstAddr data dstart w y x)) := by
  unfold blitter_core
  apply loopAcc_map_mem
  intro st y _
  apply loopAcc_map_mem
  intro st1 x _
  rfl

theorem williams_blitter_w_positions (s : BlitterState) (dupLast : Bool) (mem : Memory)
    (data : Nat) :
    (williams_blitter_w s dupLast mem 0 data).2.rows.map (List.map (fun e => e.dst)) =
      (List.range (((s.m_blitterram 7 ^^^ s.m_blitter_xor) &&& 0xff) + 1)).map
        (fun y => (List.range (((s.m_blitterram 6 ^^^ s.m_blitter_xor) &&& 0xff) + 1)).map
          (fun x => dstAddr (data % 0x100) ((s.m_blitterram 4 <<< 8) ||| s.m_blitterram 5)
            (((s.m_blitterram 6 ^^^ s.m_blitter_xor) &&& 0xff) + 1) y x)) ∧
    (williams_blitter_w s dupLast mem 0 data).2.cost =
      (((s.m_blitterram 6 ^^^ s.m_blitter_xor) &&& 0xff) + 1) *
        (((s.m_blitterram 7 ^^^ s.m_blitter_xor) &&& 0xff) + 1) *
        (if data % 0x100 &&& WMS_BLITTER_CONTROLBYTE_SLOW != 0 then 2 else 1) := by
  have e : (williams_blitter_w s dupLast mem 0 data).2 =
      blitter_core
        { s with m_blitterram := fun r => if r = 0 then data % 0x100 else s.m_blitterram r }
        dupLast mem ((s.m_blitterram 2 <<< 8) ||| s.m_blitterram 3)
        ((s.m_blitterram 4 <<< 8) ||| s.m_blitterram 5)
        (((s.m_blitterram 6 ^^^ s.m_blitter_xor) &&& 0xff) + 1)
        (((s.m_blitterram 7 ^^^ s.m_blitter_xor) &&& 0xff) + 1) (data % 0x100) := by
    simp [williams_blitter_w]
  rw [e]
  exact ⟨blitter_core_positions _ _ _ _ _ _ _ _, rfl⟩

/-! ### Helper facts on the flag constants -/

set_option maxRecDepth 100000 in
theorem orAll_flagsSet : ∀ c < 256, orAll (flagsSet c) = c := by decide

set_option maxRecDepth 100000 in
theorem flagsSet_orAll : ∀ fs ∈ controlFlags.sublists, flagsSet (orAll fs) = fs := by decide

theorem williams_blitter_w_rows (s : BlitterState) (dupLast : Bool) (mem : Memory) (data : Nat) :
    (williams_blitter_w s dupLast mem 0 data).2.rows.length =
      ((s.m_blitterram 7 ^^^ s.m_blitter_xor) &&& 0xff) + 1 ∧
    ∀ row ∈ (williams_blitter_w s dupLast mem 0 data).2.rows,
      row.length = ((s.m_blitterram 6 ^^^ s.m_blitter_xor) &&& 0xff) + 1 := by
  obtain ⟨s1, _, _, e⟩ := williams_blitter_w_trigger s dupLast mem data
  rw [e]
  exact blitter_core_rows_length _ _ _ _ _ _ _ _

/-! ### The claims on `williams.h` -/

/-- C1: the eight control-byte flag constants have the bit values of the
control-byte table: NO_EVEN = 0x80, NO_ODD = 0x40, SHIFT = 0x20, SOLID = 0x10,
FOREGROUND_ONLY = 0x08, SLOW = 0x04, DST_STRIDE_256 = 0x02,
SRC_STRIDE_256 = 0x01. -/
theorem controlbyte_flag_values :
    WMS_BLITTER_CONTROLBYTE_NO_EVEN = 0x80 ∧
    WMS_BLITTER_CONTROLBYTE_NO_ODD = 0x40 ∧
    WMS_BLITTER_CONTROLBYTE_SHIFT = 0x20 ∧
    WMS_BLITTER_CONTROLBYTE_SOLID = 0x10 ∧
    WMS_BLITTER_CONTROLBYTE_FOREGROUND_ONLY = 0x08 ∧
    WMS_BLITTER_CONTROLBYTE_SLOW = 0x04 ∧
    WMS_BLITTER_CONTROLBYTE_DST_STRIDE_256 = 0x02 ∧
    WMS_BLITTER_CONTROLBYTE_SRC_STRIDE_256 = 0x01 ∧
    controlFlags = [0x80, 0x40, 0x20, 0x10, 0x08, 0x04, 0x02, 0x01] :=
  ⟨rfl, rfl, rfl, rfl, rfl, rfl, rfl, rfl, rfl⟩

/-- C2: whatever the source address, destination address, width, height and
colour register, a blit whose control byte has both NO_EVEN and NO_ODD set
leaves every byte of memory (hence of the framebuffer) as it was: no visited
position is written, both for `blitter_core` called directly and for the blit
triggered by writing the control byte to register 0. -/
theorem no_even_no_odd_leaves_memory (s : BlitterState) (dupLast : Bool) (mem : Memory)
    (sstart dstart w h data : Nat)
    (he : data &&& WMS_BLITTER_CONTROLBYTE_NO_EVEN ≠ 0)
    (ho : data &&& WMS_BLITTER_CONTROLBYTE_NO_ODD ≠ 0) :
    (∀ a, (blitter_core s dupLast mem sstart dstart w h data).mem a = mem a) ∧
    (∀ row ∈ (blitter_core s dupLast mem sstart dstart w h data).rows,
      ∀ e ∈ row, e.wrote = false) ∧
    (∀ a, (williams_blitter_w s dupLast mem 0 data).2.mem a = mem a) := by
  refine ⟨?_, ?_, ?_⟩
  · intro a
    rw [blitter_core_frame s dupLast mem sstart dstart w h data he ho]
  · intro row hrow e hmem
    unfold blitter_core at hrow
    obtain ⟨st1, y, _, hy⟩ := loopAcc_mem _ _ _ _ hrow
    subst hy
    obtain ⟨st2, x, _, hx⟩ := loopAcc_mem _ _ _ _ hmem
    subst hx
    simp only [blitColumn, blit_pixel_no_even_no_odd _ _ _ _ _ he ho]
  · intro a
    obtain ⟨s1, _, _, e⟩ := williams_blitter_w_trigger s dupLast mem data
    rw [e, blitter_core_frame]
    · rw [mod_256_and data _ (by decide)]
      exact he
    · rw [mod_256_and data _ (by decide)]
      exact ho

/-- Witness of C2: a 3 by 2 blit with control byte 0xC0 on the demonstration
board. -/
theorem no_even_no_odd_leaves_memory_witness :
    0xC0 &&& WMS_BLITTER_CONTROLBYTE_NO_EVEN ≠ 0 ∧
    0xC0 &&& WMS_BLITTER_CONTROLBYTE_NO_ODD ≠ 0 ∧
    (∀ a, (blitter_core demoState false demoMemory 0x8000 0 3 2 0xC0).mem a = demoMemory a) :=
  ⟨by decide, by decide,
    (no_even_no_odd_leaves_memory demoState false demoMemory 0x8000 0 3 2 0xC0
      (by decide) (by decide)).1⟩

/-- C3 (amended): for every content `w` of the width register (register 6)
and `h` of the height register (register 7), the blit triggered by a write to
register 0 visits `((h xor x) and 0xff) + 1` rows of `((w xor x) and 0xff) + 1`
bytes each, where `x` is `m_blitter_xor`: the destination addresses visited
are exactly those of that rectangle, row by row, and the cost is the number of
its bytes, doubled under SLOW. After `blitter_init` for SC1 this is
`((h xor 4) and 0xff) + 1` rows of `((w xor 4) and 0xff) + 1` bytes; after
`blitter_init` for SC2 it is `(h and 0xff) + 1` rows of `(w and 0xff) + 1`
bytes. -/
theorem triggered_blit_dimensions (s : BlitterState) (remap_prom : Option (Nat → Nat))
    (dupLast : Bool) (mem : Memory) (data : Nat) :
    ((williams_blitter_w s dupLast mem 0 data).2.rows.length =
        ((s.m_blitterram 7 ^^^ s.m_blitter_xor) &&& 0xff) + 1 ∧
      ∀ row ∈ (williams_blitter_w s dupLast mem 0 data).2.rows,
        row.length = ((s.m_blitterram 6 ^^^ s.m_blitter_xor) &&& 0xff) + 1) ∧
    ((williams_blitter_w s dupLast mem 0 data).2.rows.map (List.map (fun e => e.dst)) =
        (List.range (((s.m_blitterram 7 ^^^ s.m_blitter_xor) &&& 0xff) + 1)).map
          (fun y => (List.range (((s.m_blitterram 6 ^^^ s.m_blitter_xor) &&& 0xff) + 1)).map
            (fun x => dstAddr (data % 0x100) ((s.m_blitterram 4 <<< 8) ||| s.m_blitterram 5)
              (((s.m_blitterram 6 ^^^ s.m_blitter_xor) &&& 0xff) + 1) y x)) ∧
      (williams_blitter_w s dupLast mem 0 data).2.cost =
        (((s.m_blitterram 6 ^^^ s.m_blitter_xor) &&& 0xff) + 1) *
          (((s.m_blitterram 7 ^^^ s.m_blitter_xor) &&& 0xff) + 1) *
          (if data % 0x100 &&& WMS_BLITTER_CONTROLBYTE_SLOW != 0 then 2 else 1)) ∧
    ((williams_blitter_w (blitter_init s WILLIAMS_BLITTER_SC1 remap_prom)
          dupLast mem 0 data).2.rows.length = ((s.m_blitterram 7 ^^^ 4) &&& 0xff) + 1 ∧
      ∀ row ∈ (williams_blitter_w (blitter_init s WILLIAMS_BLITTER_SC1 remap_prom)
          dupLast mem 0 data).2.rows,
        row.length = ((s.m_blitterram 6 ^^^ 4) &&& 0xff) + 1) ∧
    ((williams_blitter_w (blitter_init s WILLIAMS_BLITTER_SC2 remap_prom)
          dupLast mem 0 data).2.rows.length = (s.m_blitterram 7 &&& 0xff) + 1 ∧
      ∀ row ∈ (williams_blitter_w (blitter_init s WILLIAMS_BLITTER_SC2 remap_prom)
          dupLast mem 0 data).2.rows,
        row.length = (s.m_blitterram 6 &&& 0xff) + 1) := by
  refine ⟨williams_blitter_w_rows s dupLast mem data,
    williams_blitter_w_positions s dupLast mem data, ?_, ?_⟩
  · exact williams_blitter_w_rows (blitter_init s WILLIAMS_BLITTER_SC1 remap_prom) dupLast mem data
  · have h := williams_blitter_w_rows (blitter_init s WILLIAMS_BLITTER_SC2 remap_prom)
      dupLast mem data
    have hx : (blitter_init s WILLIAMS_BLITTER_SC2 remap_prom).m_blitter_xor = 0 := rfl
    have hr : (blitter_init s WILLIAMS_BLITTER_SC2 remap_prom).m_blitterram = s.m_blitterram := rfl
    rw [hx, hr, Nat.xor_zero, Nat.xor_zero] at h
    exact h

/-- Counterexample to C3 as stated: on an SC2 board with the registers of
scenario S1 (width register 127, height register 7) the triggered blit visits
8 rows of 128 bytes, not the `((7 xor 4) and 0xff) + 1 = 4` rows of
`((127 xor 4) and 0xff) + 1 = 124` bytes of the claim. -/
theorem triggered_blit_dimensions_counterexample :
    scenarioS1State.m_blitterram 6 = 127 ∧ scenarioS1State.m_blitterram 7 = 7 ∧
    (williams_blitter_w scenarioS1State false demoMemory 0
        WMS_BLITTER_CONTROLBYTE_SOLID).2.rows.length = 8 ∧
    (∀ row ∈ (williams_blitter_w scenarioS1State false demoMemory 0
        WMS_BLITTER_CONTROLBYTE_SOLID).2.rows, row.length = 128) ∧
    (williams_blitter_w scenarioS1State false demoMemory 0
        WMS_BLITTER_CONTROLBYTE_SOLID).2.rows.length ≠ ((7 ^^^ 4) &&& 0xff) + 1 ∧
    ¬ (∀ row ∈ (williams_blitter_w scenarioS1State false demoMemory 0
        WMS_BLITTER_CONTROLBYTE_SOLID).2.rows, row.length = ((127 ^^^ 4) &&& 0xff) + 1) := by
  have h := williams_blitter_w_rows scenarioS1State false demoMemory
    WMS_BLITTER_CONTROLBYTE_SOLID
  have e7 : ((scenarioS1State.m_blitterram 7 ^^^ scenarioS1State.m_blitter_xor) &&& 0xff) + 1
      = 8 := by decide
  have e6 : ((scenarioS1State.m_blitterram 6 ^^^ scenarioS1State.m_blitter_xor) &&& 0xff) + 1
      = 128 := by decide
  rw [e7, e6] at h
  refine ⟨rfl, rfl, h.1, h.2, ?_, ?_⟩
  · rw [h.1]
    decide
  · intro hall
    have hne : (williams_blitter_w scenarioS1State false demoMemory 0
        WMS_BLITTER_CONTROLBYTE_SOLID).2.rows ≠ [] := by
      intro hnil
      have := h.1
      rw [hnil] at this
      exact absurd this (by decide)
    obtain ⟨row, hrow⟩ := List.exists_mem_of_ne_nil _ hne
    have h1 := h.2 row hrow
    have h2 := hall row hrow
    rw [h1] at h2
    exact absurd h2 (by decide)

/-- C4 (amended): with width 1, height `n ≤ 256`, control byte SRC_STRIDE_256
alone, an identity remap and a blit window that allows the `n` destination
addresses, the SC2 blit visits `n` positions; row `y` fetches the byte at
`sstart + 256 y` and writes it unchanged at `dstart + y`; the `n` source
addresses are pairwise distinct; the memory afterwards is the memory before
with the rows copied in order, so that the destination of row `y` holds the
byte that was at its source whenever no earlier row wrote that source, and
every address outside the destinations is unchanged. On SC1 with `n ≥ 2` the
second row fetches the first source byte again, and afterwards the first two
destination bytes both hold the first source byte, under either reading of
which byte SC1 re-reads. -/
theorem sc2_copies_sc1_duplicates (s : BlitterState) (dupLast : Bool) (mem : Memory)
    (sstart dstart n : Nat) (hidx : s.m_blitter_remap_index < 16)
    (hwin : ∀ y < n, windowAllows s ((dstart + y) % 0x10000) = true) (hn : n ≤ 256) :
    ((stridedColumnBlit WILLIAMS_BLITTER_SC2 s dupLast mem sstart dstart n).rows.map
        (List.map (fun e => (e.src, e.dst, e.wrote))) =
      (List.range n).map
        (fun y => [((sstart + 256 * y) % 0x10000, (dstart + y) % 0x10000, true)])) ∧
    (∀ row ∈ (stridedColumnBlit WILLIAMS_BLITTER_SC2 s dupLast mem sstart dstart n).rows,
      ∀ e ∈ row, e.data = e.fetched ∧ e.wrote = true) ∧
    ((List.range n).map (fun y => (sstart + 256 * y) % 0x10000)).Nodup ∧
    ((stridedColumnBlit WILLIAMS_BLITTER_SC2 s dupLast mem sstart dstart n).mem =
      (List.range n).foldl (copyRow (fun y => (sstart + 256 * y) % 0x10000) dstart) mem) ∧
    (∀ y < n, (∀ z < y, (dstart + z) % 0x10000 ≠ (sstart + 256 * y) % 0x10000) →
      (stridedColumnBlit WILLIAMS_BLITTER_SC2 s dupLast mem sstart dstart n).mem
          ((dstart + y) % 0x10000) = mem ((sstart + 256 * y) % 0x10000) % 0x100) ∧
    (∀ a, (∀ y < n, a ≠ (dstart + y) % 0x10000) →
      (stridedColumnBlit WILLIAMS_BLITTER_SC2 s dupLast mem sstart dstart n).mem a = mem a) ∧
    (2 ≤ n →
      (∃ rest,
        (stridedColumnBlit WILLIAMS_BLITTER_SC1 s dupLast mem sstart dstart n).rows =
          [{ src := sstart % 0x10000, dst := dstart % 0x10000,
             fetched := readByte mem sstart, data := readByte mem sstart, wrote := true }] ::
          [{ src := sstart % 0x10000, dst := (dstart + 1) % 0x10000,
             fetched := readByte mem sstart, data := readByte mem sstart, wrote := true }] ::
          rest) ∧
      (stridedColumnBlit WILLIAMS_BLITTER_SC1 s dupLast mem sstart dstart n).mem
          (dstart % 0x10000) = mem (sstart % 0x10000) % 0x100 ∧
      (stridedColumnBlit WILLIAMS_BLITTER_SC1 s dupLast mem sstart dstart n).mem
          ((dstart + 1) % 0x10000) = mem (sstart % 0x10000) % 0x100) := by
  refine ⟨sc2_trace s dupLast mem sstart dstart n hidx hwin,
    stridedColumnBlit_data _ s dupLast mem sstart dstart n hidx hwin, ?_,
    sc2_mem_eq s dupLast mem sstart dstart n hidx hwin, ?_, ?_, ?_⟩
  · apply List.Nodup.map_on _ (List.nodup_range n)
    intro a ha b hb hab
    rw [List.mem_range] at ha hb
    omega
  · intro y hy hsrc
    rw [sc2_mem_eq s dupLast mem sstart dstart n hidx hwin]
    exact copyFold_value (fun y => (sstart + 256 * y) % 0x10000) dstart mem n y
      (by omega) hy hsrc
  · intro a ha
    rw [sc2_mem_eq s dupLast mem sstart dstart n hidx hwin]
    exact copyFold_stable _ dstart mem a 0 n (Nat.zero_le _) (fun y _ h2 => ha y h2)
  · intro h2
    exact ⟨sc1_rows s dupLast mem sstart dstart n hidx hwin h2,
      sc1_first_two s dupLast mem sstart dstart n hidx hwin h2 hn⟩

/-- Witness of C4: three rows from 0x8000 to 0x0000 on the demonstration
board; afterwards byte 1 holds the byte of 0x8100 on SC2 and the byte of
0x8000 on SC1. -/
theorem sc2_copies_sc1_duplicates_witness :
    demoState.m_blitter_remap_index < 16 ∧
    (∀ y < 3, windowAllows demoState ((0 + y) % 0x10000) = true) ∧
    3 ≤ 256 ∧
    (stridedColumnBlit WILLIAMS_BLITTER_SC2 demoState false demoMemory 0x8000 0 3).mem
        ((0 + 1) % 0x10000) = demoMemory ((0x8000 + 256 * 1) % 0x10000) % 0x100 ∧
    (stridedColumnBlit WILLIAMS_BLITTER_SC1 demoState false demoMemory 0x8000 0 3).mem
        ((0 + 1) % 0x10000) = demoMemory (0x8000 % 0x10000) % 0x100 :=
  ⟨by decide, by decide, by decide,
    (sc2_copies_sc1_duplicates demoState false demoMemory 0x8000 0 3
      (by decide) (by decide) (by decide)).2.2.2.2.1 1 (by decide) (by decide),
    ((sc2_copies_sc1_duplicates demoState false demoMemory 0x8000 0 3
      (by decide) (by decide) (by decide)).2.2.2.2.2.2 (by decide)).2.2⟩

set_option maxRecDepth 1000000 in
/-- Counterexample to C4 as stated ("for every n"). With `n = 1` the SC1 blit
visits one position only, and the byte at the second position is left as it
was, which is not the first source byte. With `n = 257` the SC2 rows 0 and
256 fetch from the same source address. With the blit window closed over the
destination nothing is written at all. -/
theorem sc2_copies_sc1_duplicates_counterexample :
    ((stridedColumnBlit WILLIAMS_BLITTER_SC1 demoState false demoMemory 0x8000 0 1).rows.length
        = 1 ∧
      (stridedColumnBlit WILLIAMS_BLITTER_SC1 demoState false demoMemory 0x8000 0 1).mem 1
        = demoMemory 1 ∧
      demoMemory 1 ≠ demoMemory 0x8000 % 0x100) ∧
    ((0x8000 + 256 * 0) % 0x10000 = (0x8000 + 256 * 256) % 0x10000 ∧
      ¬ ((List.range 257).map (fun y => (0x8000 + 256 * y) % 0x10000)).Nodup) ∧
    ((stridedColumnBlit WILLIAMS_BLITTER_SC2 closedWindowState false demoMemory 0x8000 0
          3).rows.map (List.map (fun e => (e.src, e.dst, e.wrote))) =
        [[(0x8000, 0, false)], [(0x8100, 1, false)], [(0x8200, 2, false)]] ∧
      [0, 1, 2].map (stridedColumnBlit WILLIAMS_BLITTER_SC2 closedWindowState false demoMemory
          0x8000 0 3).mem = [0, 1, 2].map demoMemory ∧
      [0x8000, 0x8100, 0x8200].map demoMemory = [138, 143, 148]) := by
  refine ⟨⟨by decide, by decide, by decide⟩, ⟨by decide, ?_⟩, ⟨by decide, by decide, by decide⟩⟩
  intro h
  have h0 : ((List.range 257).map (fun y => (0x8000 + 256 * y) % 0x10000))[0]? = some 0x8000 := by
    simp
  have h256 : ((List.range 257).map (fun y => (0x8000 + 256 * y) % 0x10000))[256]?
      = some 0x8000 := by
    simp
  exact (List.nodup_iff_getElem?_ne_getElem?.1 h) 0 256 (by decide) (by simp)
    (h0.trans h256.symm)

/-- C5: after `blitter_init` with a remap PROM, for every table index
`i < 16` and byte `b < 256` the lookup cell `lut[i][b]` holds
`(remap_prom[(i<<4) | (b>>4)] << 4) | remap_prom[(i<<4) | (b & 0xF)]` as a
byte (the cell is a `uint8_t`), which is that value itself when the PROM entry
shifted into the high nibble is a 4-bit value and the other one a byte; after
`blitter_init` without a PROM, `lut[i][b] = b`. -/
theorem remap_lookup_spec (s : BlitterState) (cfg : Nat) (remap_prom : Nat → Nat)
    (i b : Nat) (hi : i < 16) (hb : b < 256) :
    lut (blitter_init s cfg (some remap_prom)) i b =
      ((remap_prom ((i <<< 4) ||| (b >>> 4)) <<< 4) ||| remap_prom ((i <<< 4) ||| (b &&& 0xF)))
        % 0x100 ∧
    (remap_prom ((i <<< 4) ||| (b >>> 4)) < 16 → remap_prom ((i <<< 4) ||| (b &&& 0xF)) < 256 →
      lut (blitter_init s cfg (some remap_prom)) i b =
        (remap_prom ((i <<< 4) ||| (b >>> 4)) <<< 4) ||| remap_prom ((i <<< 4) ||| (b &&& 0xF))) ∧
    lut (blitter_init s cfg none) i b = b := by
  rw [lut_blitter_init s cfg _ i b hi hb, lut_blitter_init s cfg _ i b hi hb]
  refine ⟨rfl, ?_, rfl⟩
  intro h1 h2
  exact nibble_pair_mod _ _ h1 h2

/-- Witness of C5: table 3, byte 0x4A, with the PROM whose entry `k` is
`k mod 16`. -/
theorem remap_lookup_spec_witness :
    3 < 16 ∧ 0x4A < 256 ∧
    lut (blitter_init demoState WILLIAMS_BLITTER_SC2 (some (fun k => k % 16))) 3 0x4A = 0x4A ∧
    lut (blitter_init demoState WILLIAMS_BLITTER_SC2 none) 3 0x4A = 0x4A :=
  ⟨by decide, by decide,
    (remap_lookup_spec demoState WILLIAMS_BLITTER_SC2 (fun k => k % 16) 3 0x4A
      (by decide) (by decide)).1.trans (by decide),
    (remap_lookup_spec demoState WILLIAMS_BLITTER_SC2 (fun k => k % 16) 3 0x4A
      (by decide) (by decide)).2.2⟩

/-- C6: the blitter type is one of exactly three selectors NONE = 0, SC1 = 1,
SC2 = 2; they are pairwise distinct, so a configured value that is a blitter
type occurs exactly once among them: it identifies one variant. -/
theorem blitter_selectors_distinct :
    WILLIAMS_BLITTER_NONE = 0 ∧ WILLIAMS_BLITTER_SC1 = 1 ∧ WILLIAMS_BLITTER_SC2 = 2 ∧
    blitterSelectors.length = 3 ∧
    WILLIAMS_BLITTER_NONE ≠ WILLIAMS_BLITTER_SC1 ∧
    WILLIAMS_BLITTER_NONE ≠ WILLIAMS_BLITTER_SC2 ∧
    WILLIAMS_BLITTER_SC1 ≠ WILLIAMS_BLITTER_SC2 ∧
    blitterSelectors.Nodup ∧
    ∀ cfg ∈ blitterSelectors, blitterSelectors.count cfg = 1 := by
  refine ⟨rfl, rfl, rfl, rfl, by decide, by decide, by decide, by decide, ?_⟩
  decide

/-- C7: the eight control-byte flags are single bits, pairwise disjoint, with
bitwise OR 0xFF; every control byte `c` in 0..255 is the OR of exactly the
flags `f` with `c & f` non-zero, and that set of flags is the only subset of
the eight whose OR is `c`. -/
theorem controlbyte_flags_partition :
    (∀ f ∈ controlFlags, ∃ k < 8, f = 2 ^ k) ∧
    controlFlags.Pairwise (fun a b => a &&& b = 0) ∧
    controlFlags.length = 8 ∧
    orAll controlFlags = 0xFF ∧
    (∀ c < 256, flagsSet c ∈ controlFlags.sublists ∧ orAll (flagsSet c) = c) ∧
    (∀ c < 256, ∀ fs ∈ controlFlags.sublists, (orAll fs = c ↔ fs = flagsSet c)) := by
  refine ⟨by decide, by decide, rfl, by decide, ?_, ?_⟩
  · intro c hc
    exact ⟨List.mem_sublists.2 (List.filter_sublist _), orAll_flagsSet c hc⟩
  · intro c hc fs hfs
    constructor
    · intro h
      rw [← h, flagsSet_orAll fs hfs]
    · intro h
      rw [h, orAll_flagsSet c hc]

/-! ### The scenarios of the specification on the model -/

/-- Scenario S1: on an SC2 board a solid fill with width register 127, height
register 7, colour 0x77 and destination 0 leaves 0x77 in the bytes 0..1023 and
costs 1024 microseconds. -/
theorem scenario_S1_solid_fill (mem : Memory) :
    (∀ a < 1024, (williams_blitter_w scenarioS1State false mem 0
        WMS_BLITTER_CONTROLBYTE_SOLID).2.mem a = 0x77) ∧
    (williams_blitter_w scenarioS1State false mem 0 WMS_BLITTER_CONTROLBYTE_SOLID).2.cost
      = 1024 := by
  have e : (williams_blitter_w scenarioS1State false mem 0 WMS_BLITTER_CONTROLBYTE_SOLID).2 =
      blitter_core
        { scenarioS1State with
          m_blitterram := fun r => if r = 0 then WMS_BLITTER_CONTROLBYTE_SOLID % 0x100
            else scenarioS1State.m_blitterram r }
        false mem 0 0 128 8 WMS_BLITTER_CONTROLBYTE_SOLID := by
    have e0 : (127 &&& 0xff) + 1 = 128 := by decide
    have e1 : (7 &&& 0xff) + 1 = 8 := by decide
    have e2 : WMS_BLITTER_CONTROLBYTE_SOLID % 0x100 = WMS_BLITTER_CONTROLBYTE_SOLID := by decide
    simp only [williams_blitter_w, scenarioS1State, blitter_init, WILLIAMS_BLITTER_SC2,
      WILLIAMS_BLITTER_SC1, if_true, Nat.lt_irrefl, e2]
    simp [e0, e1]
  rw [e]
  constructor
  · intro a ha
    have hd : dstAddr WMS_BLITTER_CONTROLBYTE_SOLID 0 128 (a / 128) (a % 128) = a := by
      simp only [dstAddr]
      have : (WMS_BLITTER_CONTROLBYTE_SOLID &&& WMS_BLITTER_CONTROLBYTE_DST_STRIDE_256 != 0)
          = false := by decide
      simp only [this, Bool.false_eq_true, if_false]
      omega
    have := blitter_core_solid_fill
      { scenarioS1State with
          m_blitterram := fun r => if r = 0 then WMS_BLITTER_CONTROLBYTE_SOLID % 0x100
            else scenarioS1State.m_blitterram r }
      false mem 0 0 128 8 0x77 (a / 128) (a % 128) (by decide)
      (buildRemapLookup_getD none 0 0x77 (by decide) (by decide)) (by decide)
      (by omega) (by omega)
    rw [hd] at this
    exact this
  · rfl

set_option maxRecDepth 1000000 in
/-- Scenario S4 on SC2: the destination gets AA, BB, CC, DD. -/
theorem scenario_S4_sc2 :
    (blitter_core (blitter_init demoState WILLIAMS_BLITTER_SC2 none) false scenarioS4Memory
        0x8000 0 2 2 WMS_BLITTER_CONTROLBYTE_SRC_STRIDE_256).rows.map
      (List.map (fun e => (e.dst, e.data))) =
    [[(0, 0xAA), (1, 0xBB)], [(2, 0xCC), (3, 0xDD)]] := by decide

set_option maxRecDepth 1000000 in
/-- Scenario S4 on SC1: AA, BB, AA, CC when the first byte of the row before
is re-read (the data of S4), AA, BB, BB, CC when its last byte is (the remark
of S4 and section 4.1). -/
theorem scenario_S4_sc1 :
    (blitter_core (blitter_init demoState WILLIAMS_BLITTER_SC1 none) false scenarioS4Memory
        0x8000 0 2 2 WMS_BLITTER_CONTROLBYTE_SRC_STRIDE_256).rows.map
      (List.map (fun e => (e.dst, e.data))) =
    [[(0, 0xAA), (1, 0xBB)], [(2, 0xAA), (3, 0xCC)]] ∧
    (blitter_core (blitter_init demoState WILLIAMS_BLITTER_SC1 none) true scenarioS4Memory
        0x8000 0 2 2 WMS_BLITTER_CONTROLBYTE_SRC_STRIDE_256).rows.map
      (List.map (fun e => (e.dst, e.data))) =
    [[(0, 0xAA), (1, 0xBB)], [(2, 0xBB), (3, 0xCC)]] := by decide

set_option maxRecDepth 1000000 in
/-- Scenario S2: a SHIFT blit of 0x12, 0x34, 0x56 leaves 0x01, 0x23, 0x45 in
the framebuffer. -/
theorem scenario_S2_shift :
    [0, 1, 2].map (blitter_core (blitter_init demoState WILLIAMS_BLITTER_SC2 none) false
        scenarioS2Memory 0x8000 0 3 1 WMS_BLITTER_CONTROLBYTE_SHIFT).mem =
    [0x01, 0x23, 0x45] := by decide

end Williams

namespace C64Midi

theorem and_one_of_low_byte (a b : Nat) (h : a &&& 0xff = b &&& 0xff) : a &&& 1 = b &&& 1 := by
  have e : ∀ x : Nat, x &&& 1 = (x &&& 0xff) &&& 1 := by
    intro x
    rw [Nat.land_assoc]
    rfl
  rw [e a, e b, h]

/-- C8: for every offset, incoming data byte and `io1`, `c64_cd_r` returns the
ACIA read of register `offset & 1` when `io1 = 0` and `offset & 0xff` is 2 or
3 (one read access, the ACIA state is the state after the read); otherwise it
returns the incoming data byte, makes no ACIA access and leaves the ACIA
state as it was. -/
theorem c64_cd_r_spec {σ : Type} (m_acia : Acia σ) (st : σ) (offset : Nat) (data : Byte)
    (sphi2 ba roml romh io1 io2 : Int) :
    c64_cd_r m_acia st offset data sphi2 ba roml romh io1 io2 =
      if io1 = 0 ∧ (offset &&& 0xff = 2 ∨ offset &&& 0xff = 3) then
        { data := (m_acia.read st (offset &&& 1)).1,
          acia := (m_acia.read st (offset &&& 1)).2,
          accesses := [AciaAccess.read (offset &&& 1)] }
      else
        { data := data, acia := st, accesses := [] } := by
  unfold c64_cd_r
  by_cases h : io1 = 0
  · simp only [h, if_true, true_and]
    split
    · rename_i h2
      rw [if_pos (Or.inl h2)]
    · rename_i h3
      rw [if_pos (Or.inr h3)]
    · rename_i h2 h3
      have : ¬ (offset &&& 0xff = 2 ∨ offset &&& 0xff = 3) := by
        rintro (h4 | h4)
        · exact h2 h4
        · exact h3 h4
      rw [if_neg this]
  · rw [if_neg h, if_neg (fun hh => h hh.1)]

/-- C9: for every offset, data byte and `io1`, `c64_cd_w` makes exactly one
ACIA write of `data` to register `offset & 1` when `io1 = 0` and
`offset & 0xff` is 0 or 1; otherwise it makes no ACIA access and leaves the
state as it was. -/
theorem c64_cd_w_spec {σ : Type} (m_acia : Acia σ) (st : σ) (offset : Nat) (data : Byte)
    (sphi2 ba roml romh io1 io2 : Int) :
    c64_cd_w m_acia st offset data sphi2 ba roml romh io1 io2 =
      if io1 = 0 ∧ (offset &&& 0xff = 0 ∨ offset &&& 0xff = 1) then
        { data := data,
          acia := m_acia.write st (offset &&& 1) data,
          accesses := [AciaAccess.write (offset &&& 1) data] }
      else
        { data := data, acia := st, accesses := [] } := by
  unfold c64_cd_w
  by_cases h : io1 = 0
  · simp only [h, if_true, true_and]
    split
    · rename_i h2
      rw [if_pos (Or.inl h2)]
    · rename_i h3
      rw [if_pos (Or.inr h3)]
    · rename_i h2 h3
      have : ¬ (offset &&& 0xff = 0 ∨ offset &&& 0xff = 1) := by
        rintro (h4 | h4)
        · exact h2 h4
        · exact h3 h4
      rw [if_neg this]
  · rw [if_neg h, if_neg (fun hh => h hh.1)]

/-- C10: two calls of `c64_cd_r`, or of `c64_cd_w`, that agree on `io1`, on
`offset & 0xff`, on `data` and on the ACIA state have the same outcome
(returned byte, ACIA accesses, ACIA state afterwards), whatever the remaining
address bits and the lines `sphi2`, `ba`, `roml`, `romh` and `io2` are. -/
theorem c64_cd_low_byte_only {σ : Type} (m_acia : Acia σ) (st : σ) (offset offset2 : Nat)
    (data : Byte) (sphi2 ba roml romh io2 sphi2b bab romlb romhb io2b io1 : Int)
    (h : offset &&& 0xff = offset2 &&& 0xff) :
    c64_cd_r m_acia st offset data sphi2 ba roml romh io1 io2 =
      c64_cd_r m_acia st offset2 data sphi2b bab romlb romhb io1 io2b ∧
    c64_cd_w m_acia st offset data sphi2 ba roml romh io1 io2 =
      c64_cd_w m_acia st offset2 data sphi2b bab romlb romhb io1 io2b := by
  have h1 := and_one_of_low_byte offset offset2 h
  unfold c64_cd_r c64_cd_w
  rw [h, h1]
  exact ⟨rfl, rfl⟩

/-- Witness of C10: offsets 0x1234502 and 0x02 with all the other lines
different, on the demonstration ACIA. -/
theorem c64_cd_low_byte_only_witness :
    (0x1234502 : Nat) &&& 0xff = 0x02 &&& 0xff ∧
    c64_cd_r demoAcia [7] 0x1234502 5 1 0 1 0 0 1 = c64_cd_r demoAcia [7] 0x02 5 0 1 0 1 0 0 ∧
    c64_cd_w demoAcia [7] 0x1234502 5 1 0 1 0 0 1 = c64_cd_w demoAcia [7] 0x02 5 0 1 0 1 0 0 :=
  ⟨by decide,
    (c64_cd_low_byte_only demoAcia [7] 0x1234502 0x02 5 1 0 1 0 1 0 1 0 1 0 0 (by decide)).1,
    (c64_cd_low_byte_only demoAcia [7] 0x1234502 0x02 5 1 0 1 0 1 0 1 0 1 0 0 (by decide)).2⟩

end C64Midi
